import Mathlib

/-!
# Verification of the boost CLI reporting framework

Shallow embedding of the boost repository's Reporter rendering engine and
Tool plugin orchestration, with theorems settling the specification claims.

The Reporter implementation file (`src/Reporter.ts`) is not present in the
repository snapshot; only its test suite is.  The Reporter operations below
are therefore modelled from the specification (§4.1–§4.2), with every detail
that the repository's own test suite pins down (exact escape sequences,
buffer contents, call counts, the default newline count of `log`) taken from
those tests.  The Tool operations are translated directly from
`packages/core/src/Tool.ts`.
-/

namespace Boost

/-- Modelled from the spec: a JavaScript `Error` object as consumed by the
missing `src/Reporter.ts` — only its `message` and `stack` matter to the
rendering engine. -/
structure ErrObj where
  message : String
  stack : String
deriving DecidableEq, Repr

/-- Modelled from the spec: the mutable instance state of the missing
`src/Reporter.ts` class (§3 "Reporter state"), together with an observation
log of the raw stream writes (`outWrites` / `errWrites` record each call to
`this.out` / `this.err` in order) and counters of `setTimeout` /
`setInterval` invocations (`timeoutsSet` / `intervalsSet`). -/
structure ReporterState where
  lines : List String
  logs : List String
  errorLogs : List String
  bufferedOutput : String
  lastOutputHeight : Nat
  renderScheduled : Bool
  renderTimer : Option Nat
  intervalTimer : Option Nat
  startTime : Nat
  stopTime : Nat
  silent : Bool
  footerOpt : Option String
  timeoutsSet : Nat
  intervalsSet : Nat
  outWrites : List String
  errWrites : List String
deriving DecidableEq, Repr

namespace Reporter

/-- Modelled from the spec (§4.1): `out(text)` writes raw text to stdout;
we record the write. -/
def out (s : ReporterState) (text : String) : ReporterState :=
  { s with outWrites := s.outWrites ++ [text] }

/-- Modelled from the spec (§4.1): `err(text)` writes raw text to stderr;
we record the write. -/
def err (s : ReporterState) (text : String) : ReporterState :=
  { s with errWrites := s.errWrites ++ [text] }

/-- The cursor-up-and-erase-line ANSI sequence used by `clearLinesOutput`,
pinned by the test suite (`'\x1B[1A\x1B[K'.repeat(10)`). -/
def eraseLineSequence : String := "\x1B[1A\x1B[K"

/-- `text.repeat(n)` of JavaScript: the string repeated `n` times. -/
def strRepeat (text : String) (n : Nat) : String :=
  String.join (List.replicate n text)

/-- Modelled from the spec (§4.1): `clearLinesOutput()` writes the
cursor-up-and-erase-line sequence repeated `lastOutputHeight` times, then
resets `lastOutputHeight` to 0. -/
def clearLinesOutput (s : ReporterState) : ReporterState :=
  { out s (strRepeat eraseLineSequence s.lastOutputHeight) with
    lastOutputHeight := 0 }

/-- Modelled from the spec (§4.2): `log(message, nl)` appends
`message + '\n'.repeat(nl)` to `bufferedOutput` unless the `silent` option
is set.  The default newline count is 0, pinned by the test suite
(`log('foo'); log('bar')` leaves `bufferedOutput === 'foobar'`). -/
def log (s : ReporterState) (message : String) (nl : Nat := 0) : ReporterState :=
  if s.silent then s
  else { s with bufferedOutput := s.bufferedOutput ++ message ++ strRepeat "\n" nl }

/-- Modelled from the spec (§4.2): `flushBufferedOutput()` — if
`bufferedOutput` is non-empty, writes it via `out` in a single call, sets
`lastOutputHeight` to the number of newline-terminated segments written —
equal to the number of newline characters, i.e. the length of the split on
newline minus one: the test suite pins the value 2 for the buffer
`'foo\nbar\nbaz'` — then clears the buffer. -/
def flushBufferedOutput (s : ReporterState) : ReporterState :=
  if s.bufferedOutput = "" then s
  else
    { out s s.bufferedOutput with
      lastOutputHeight := s.bufferedOutput.data.count '\n',
      bufferedOutput := "" }

/-- Modelled from the spec (§4.2): `render()` formats every entry in
`lines` and appends each, newline-terminated, to `bufferedOutput` via
`log` — the test suite pins `bufferedOutput === 'foo\nbar\nbaz\n'` after
rendering the lines `foo`, `bar`, `baz`.  `renderLines` is the loop. -/
def renderLines (ls : List String) (s : ReporterState) : ReporterState :=
  match ls with
  | [] => s
  | l :: rest => renderLines rest (log s l 1)

/-- Modelled from the spec (§4.2): `render()` over the current `lines`. -/
def render (s : ReporterState) : ReporterState :=
  renderLines s.lines s

/-- Modelled from the spec (§4.2): `handleRender()` — clears previously
drawn lines, re-renders all current `lines`, flushes buffered output. -/
def handleRender (s : ReporterState) : ReporterState :=
  flushBufferedOutput (render (clearLinesOutput s))

/-- Modelled from the spec (§4.2): `debounceRender()` — no-op when a render
is already scheduled; otherwise sets `renderScheduled` and schedules one
`setTimeout` (recorded by bumping `timeoutsSet` and storing a fresh timer
handle). -/
def debounceRender (s : ReporterState) : ReporterState :=
  if s.renderScheduled then s
  else
    { s with
      renderScheduled := true
      renderTimer := some s.timeoutsSet
      timeoutsSet := s.timeoutsSet + 1 }

/-- `n` synchronous calls to `debounceRender` in sequence. -/
def debounceRenderN (n : Nat) (s : ReporterState) : ReporterState :=
  match n with
  | 0 => s
  | Nat.succ m => debounceRenderN m (debounceRender s)

/-- Modelled from the spec (§4.2): the scheduled debounce timer firing —
calls `handleRender()` then clears the `renderScheduled` flag and the
timer handle. -/
def fireRenderTimer (s : ReporterState) : ReporterState :=
  { handleRender s with renderScheduled := false, renderTimer := none }

/-- Modelled from the spec (§4.2, §7): `displayError(error)` writes three
lines to the error stream: header separator, message/stack, footer
separator. -/
def displayError (s : ReporterState) (e : ErrObj) : ReporterState :=
  let s1 := err s ("\n" ++ e.message ++ "\n")
  let s2 := err s1 (e.stack ++ "\n")
  err s2 "\n"

/-- Seconds with two decimals, as `%.2f` over a millisecond duration. -/
def twoDecimals (ms : Nat) : String :=
  let frac := ms % 1000 / 10
  toString (ms / 1000) ++ "." ++ (if frac < 10 then "0" else "") ++ toString frac ++ "s"

/-- Modelled from the spec (§4.2): `displayFooter()` writes the total
elapsed time, preceded by the custom footer message when configured, else
a default "Ran in" message (pinned by the test suite). -/
def displayFooter (s : ReporterState) : ReporterState :=
  let time := twoDecimals (s.stopTime - s.startTime)
  match s.footerOpt with
  | some f => out s (f ++ " " ++ time ++ "\n")
  | none => out s ("Ran in " ++ time ++ "\n")

/-- Modelled from the spec (§4.2): `displayLogs(messages)` — no-op if
empty; otherwise writes all messages joined by newline, wrapped in a
single leading and trailing newline (the test suite pins `'\nfoo\nbar\n'`),
as one `out` call. -/
def displayLogs (s : ReporterState) (messages : List String) : ReporterState :=
  if messages = [] then s
  else out s ("\n" ++ String.intercalate "\n" messages ++ "\n")

/-- Modelled from the spec (§4.2): the timer-clearing and final render
shared by every `displayFinalOutput` path — clears the debounce and
interval timers, then forces one `handleRender()`. -/
def finalBase (s : ReporterState) : ReporterState :=
  handleRender { s with renderTimer := none, intervalTimer := none }

/-- Modelled from the spec (§4.2): `displayFinalOutput(error?)` — clears
pending timers, forces a final render, then: if `error` is set AND
`errorLogs` is empty, calls `displayError(error)`; otherwise calls
`displayFooter()`.  Then displays `errorLogs` if non-empty (regardless of
success/failure), else `logs` on success. -/
def displayFinalOutput (s : ReporterState) (error : Option ErrObj) : ReporterState :=
  let s1 := finalBase s
  let s2 :=
    match error with
    | some e => if s1.errorLogs = [] then displayError s1 e else displayFooter s1
    | none => displayFooter s1
  if s2.errorLogs = [] then
    match error with
    | none => displayLogs s2 s2.logs
    | some _ => s2
  else displayLogs s2 s2.errorLogs

/-- Modelled from the spec (§4.2): `handleBaseStart()` — records
`startTime` as the current time; when not in a CI environment, starts a
recurring interval render timer (recorded by bumping `intervalsSet` and
storing a fresh handle); in CI mode no interval timer is created. -/
def handleBaseStart (isCi : Bool) (now : Nat) (s : ReporterState) : ReporterState :=
  let s0 := { s with startTime := now }
  if isCi then s0
  else
    { s0 with
      intervalTimer := some s0.intervalsSet
      intervalsSet := s0.intervalsSet + 1 }

end Reporter

/-- A plugin instance as seen by `Tool.ts`: `classes` is its prototype
chain of class names (so `p instanceof C` becomes `p.classes.contains C`)
and `priority` is the sort key used by `loadPlugins`. -/
structure PluginV where
  classes : List String
  priority : Int
deriving DecidableEq, Repr

/-- The mutable state of a `Tool` instance from `packages/core/src/Tool.ts`
restricted to what the claims observe: the `initialized` flag, whether
`this.args` has been assigned, the loaded configuration (abstracted to the
fact that it is non-empty plus the per-plural-type plugin settings it
carries, with module loading treated as already performed), the loaded
`package.json` name, the `pluginTypes` registry (type name to contract
class name) and the `plugins` registry (type name to loaded instances). -/
structure ToolState where
  initialized : Bool
  argsSet : Bool
  configLoaded : Bool
  configPlugins : List (String × List PluginV)
  packageName : String
  pluginTypes : List (String × String)
  plugins : List (String × List PluginV)
deriving DecidableEq, Repr

namespace Tool

/-- `this.plugins[typeName].push(plugin)`: append to the entry for the
given type name in the plugins registry. -/
def updateAssoc (xs : List (String × List PluginV)) (key : String)
    (p : PluginV) : List (String × List PluginV) :=
  xs.map fun kv => if kv.1 = key then (kv.1, kv.2 ++ [p]) else kv

/-- `Tool#registerPlugin` (Tool.ts:560-590): throws when a plugin type
with the same name is already registered; otherwise records the contract
and an empty instance list for the type.  A thrown error is modelled as
`(some message, state at the throw)` — the checks precede every mutation,
so the state at the throw is the input state. -/
def registerPlugin (s : ToolState) (typeName contractClass : String) :
    Option String × ToolState :=
  if (s.pluginTypes.lookup typeName).isSome then
    (some "errors:pluginContractExists", s)
  else
    (none,
     { s with
       pluginTypes := s.pluginTypes ++ [(typeName, contractClass)]
       plugins := s.plugins ++ [(typeName, [])] })

/-- `Tool#addPlugin` (Tool.ts:172-200): throws when no plugin contract is
registered for the type name, or when the plugin does not extend `Plugin`,
or when it does not extend the registered contract; otherwise bootstraps
the plugin and pushes it onto the registry.  All checks precede every
mutation. -/
def addPlugin (s : ToolState) (typeName : String) (plugin : PluginV) :
    Option String × ToolState :=
  match s.pluginTypes.lookup typeName with
  | none => (some "errors:pluginContractNotFound", s)
  | some contractClass =>
    if !(plugin.classes.contains "Plugin") then
      (some "errors:pluginNotExtended Plugin", s)
    else if !(plugin.classes.contains contractClass) then
      (some ("errors:pluginNotExtended " ++ contractClass), s)
    else
      (none, { s with plugins := updateAssoc s.plugins typeName plugin })

/-- The `pluralize` collaborator applied to a plugin type name, modelled
for the regular nouns the repository uses (`reporter` to `reporters`). -/
def pluralizeName (typeName : String) : String := typeName ++ "s"

/-- Ascending insertion by `priority`, embedding the JavaScript
`plugins.sort((a, b) => a.priority - b.priority)`. -/
def insertByPriority (p : PluginV) : List PluginV → List PluginV
  | [] => [p]
  | q :: rest =>
    if p.priority < q.priority then p :: q :: rest
    else q :: insertByPriority p rest

/-- Sort a plugin list by ascending priority (Tool.ts:462-464). -/
def sortByPriority (ps : List PluginV) : List PluginV :=
  ps.foldr insertByPriority []

/-- `addPlugin` over a list, stopping at the first thrown error
(the `plugins.forEach` of Tool.ts:469-471). -/
def addPluginsAll (s : ToolState) (typeName : String) :
    List PluginV → Option String × ToolState
  | [] => (none, s)
  | p :: rest =>
    match addPlugin s typeName p with
    | (some m, s') => (some m, s')
    | (none, s') => addPluginsAll s' typeName rest

/-- The loop of `Tool#loadPlugins` over the registered plugin types
(Tool.ts:454-472): for each type, take the instances the configuration
holds under the plural name, sort them by priority, and add each. -/
def loadPluginsLoop (s : ToolState) :
    List (String × String) → Option String × ToolState
  | [] => (none, s)
  | (typeName, _) :: rest =>
    let mods := (s.configPlugins.lookup (pluralizeName typeName)).getD []
    match addPluginsAll s typeName (sortByPriority mods) with
    | (some m, s') => (some m, s')
    | (none, s') => loadPluginsLoop s' rest

/-- `Tool#loadPlugins` (Tool.ts:445-475): returns unchanged when already
initialized; throws when the configuration has not been loaded; otherwise
registers the configured plugins of every registered type. -/
def loadPlugins (s : ToolState) : Option String × ToolState :=
  if s.initialized then (none, s)
  else if !s.configLoaded then (some "errors:configNotLoaded plugins", s)
  else loadPluginsLoop s s.pluginTypes

/-- The `reporters.length === 0 || (reporters.length === 1 &&
reporters[0] instanceof ErrorReporter)` test of Tool.ts:502-505: no
reporter configured, or only the placeholder `ErrorReporter`. -/
def onlyPlaceholderReporters : List PluginV → Bool
  | [] => true
  | [r] => r.classes.contains "ErrorReporter"
  | _ => false

/-- The `CIReporter` instance added by `loadReporters` in a CI
environment: it extends `Reporter`, which extends `Plugin`. -/
def ciReporterV : PluginV :=
  { classes := ["CIReporter", "Reporter", "Plugin"], priority := 100 }

/-- The `DefaultReporter` instance added by `loadReporters` when no real
reporter is configured. -/
def defaultReporterV : PluginV :=
  { classes := ["DefaultReporter", "Reporter", "Plugin"], priority := 100 }

/-- `Tool#loadReporters` (Tool.ts:482-512): returns unchanged when already
initialized; throws when the configuration has not been loaded; when a CI
environment is detected and the `BOOST_ENV` override is unset, adds a
`CIReporter`; else when no reporter is configured or only the placeholder
`ErrorReporter` is present, adds a `DefaultReporter`; otherwise keeps the
configured reporters unchanged. -/
def loadReporters (isCi hasBoostEnv : Bool) (s : ToolState) :
    Option String × ToolState :=
  if s.initialized then (none, s)
  else if !s.configLoaded then (some "errors:configNotLoaded reporters", s)
  else
    let reporters := (s.plugins.lookup "reporter").getD []
    if isCi && !hasBoostEnv then addPlugin s "reporter" ciReporterV
    else if onlyPlaceholderReporters reporters then
      addPlugin s "reporter" defaultReporterV
    else (none, s)

/-- `Tool#loadConfig` (Tool.ts:385-407): returns unchanged when already
initialized; otherwise loads `package.json` and the configuration through
the external `ConfigLoader` collaborator, whose results (`pkgName` and the
plugin settings `cfgPlugins` the loaded config carries) are inputs here. -/
def loadConfig (cfgPlugins : List (String × List PluginV)) (pkgName : String)
    (s : ToolState) : Option String × ToolState :=
  if s.initialized then (none, s)
  else
    (none,
     { s with
       configLoaded := true
       configPlugins := cfgPlugins
       packageName := pkgName })

/-- `Tool#initialize` (Tool.ts:347-378): returns unchanged when already
initialized; otherwise parses arguments, then runs `loadConfig`,
`loadPlugins` and `loadReporters` in order, and sets the `initialized`
flag on success.  (Named `initTool` here; the source name is the Tool
class method in question.) -/
def initTool (cfgPlugins : List (String × List PluginV)) (pkgName : String)
    (isCi hasBoostEnv : Bool) (s : ToolState) : Option String × ToolState :=
  if s.initialized then (none, s)
  else
    match loadConfig cfgPlugins pkgName { s with argsSet := true } with
    | (some m, s1) => (some m, s1)
    | (none, s1) =>
      match loadPlugins s1 with
      | (some m, s2) => (some m, s2)
      | (none, s2) =>
        match loadReporters isCi hasBoostEnv s2 with
        | (some m, s3) => (some m, s3)
        | (none, s3) => (none, { s3 with initialized := true })

end Tool

/-- A Reporter state with everything empty/zeroed, matching a freshly
constructed Reporter in the test suite. -/
def initialReporter : ReporterState :=
  { lines := []
    logs := []
    errorLogs := []
    bufferedOutput := ""
    lastOutputHeight := 0
    renderScheduled := false
    renderTimer := none
    intervalTimer := none
    startTime := 0
    stopTime := 0
    silent := false
    footerOpt := none
    timeoutsSet := 0
    intervalsSet := 0
    outWrites := []
    errWrites := [] }

namespace Reporter

lemma log_preserve (s : ReporterState) (m : String) (n : Nat) :
    (log s m n).errorLogs = s.errorLogs ∧ (log s m n).logs = s.logs ∧
    (log s m n).errWrites = s.errWrites := by
  unfold log
  split <;> exact ⟨rfl, rfl, rfl⟩

lemma renderLines_preserve (ls : List String) (s : ReporterState) :
    (renderLines ls s).errorLogs = s.errorLogs ∧ (renderLines ls s).logs = s.logs ∧
    (renderLines ls s).errWrites = s.errWrites := by
  induction ls generalizing s with
  | nil => exact ⟨rfl, rfl, rfl⟩
  | cons l rest ih =>
    obtain ⟨h1, h2, h3⟩ := ih (log s l 1)
    obtain ⟨g1, g2, g3⟩ := log_preserve s l 1
    exact ⟨h1.trans g1, h2.trans g2, h3.trans g3⟩

lemma flushBufferedOutput_preserve (s : ReporterState) :
    (flushBufferedOutput s).errorLogs = s.errorLogs ∧
    (flushBufferedOutput s).logs = s.logs ∧
    (flushBufferedOutput s).errWrites = s.errWrites := by
  unfold flushBufferedOutput
  split <;> exact ⟨rfl, rfl, rfl⟩

lemma handleRender_preserve (s : ReporterState) :
    (handleRender s).errorLogs = s.errorLogs ∧ (handleRender s).logs = s.logs ∧
    (handleRender s).errWrites = s.errWrites := by
  unfold handleRender render
  obtain ⟨h1, h2, h3⟩ := flushBufferedOutput_preserve (renderLines (clearLinesOutput s).lines (clearLinesOutput s))
  obtain ⟨g1, g2, g3⟩ := renderLines_preserve (clearLinesOutput s).lines (clearLinesOutput s)
  exact ⟨h1.trans g1, h2.trans g2, h3.trans g3⟩

lemma finalBase_preserve (s : ReporterState) :
    (finalBase s).errorLogs = s.errorLogs ∧ (finalBase s).logs = s.logs ∧
    (finalBase s).errWrites = s.errWrites := by
  unfold finalBase
  exact handleRender_preserve { s with renderTimer := none, intervalTimer := none }

lemma displayFooter_preserve (s : ReporterState) :
    (displayFooter s).errorLogs = s.errorLogs ∧ (displayFooter s).logs = s.logs ∧
    (displayFooter s).errWrites = s.errWrites := by
  unfold displayFooter
  cases s.footerOpt <;> exact ⟨rfl, rfl, rfl⟩

lemma displayLogs_preserve (s : ReporterState) (msgs : List String) :
    (displayLogs s msgs).errorLogs = s.errorLogs ∧
    (displayLogs s msgs).errWrites = s.errWrites := by
  unfold displayLogs
  split <;> exact ⟨rfl, rfl⟩

lemma displayError_errorLogs (s : ReporterState) (e : ErrObj) :
    (displayError s e).errorLogs = s.errorLogs := rfl

lemma debounceRender_sets (s : ReporterState) :
    (debounceRender s).renderScheduled = true := by
  by_cases h : s.renderScheduled <;> simp [debounceRender, h]

lemma debounceRender_of_scheduled (s : ReporterState)
    (h : s.renderScheduled = true) : debounceRender s = s := by
  simp [debounceRender, h]

lemma debounceRenderN_of_scheduled (n : Nat) (s : ReporterState)
    (h : s.renderScheduled = true) : debounceRenderN n s = s := by
  induction n with
  | zero => rfl
  | succ m ih =>
    show debounceRenderN m (debounceRender s) = s
    rw [debounceRender_of_scheduled s h]
    exact ih

lemma debounceRenderN_collapse (n : Nat) (h : 1 ≤ n) (s : ReporterState) :
    debounceRenderN n s = debounceRender s := by
  cases n with
  | zero => omega
  | succ m =>
    show debounceRenderN m (debounceRender s) = debounceRender s
    exact debounceRenderN_of_scheduled m (debounceRender s) (debounceRender_sets s)

end Reporter

open Reporter in
/-- C2: for every number `n ≥ 1` of synchronous calls to `debounceRender`
starting from a state with no render scheduled, exactly one timer is
scheduled (`timeoutsSet` grows by exactly one), the first call sets
`renderScheduled` to true, every further call leaves the state fixed, the
flag is still true after all `n` calls and stays true under any number of
further `debounceRender` calls, and it becomes false once the scheduled
render timer fires. -/
theorem debounceRender_at_most_one_pending (s : ReporterState) (n : Nat)
    (h1 : 1 ≤ n) (h2 : s.renderScheduled = false) :
    (debounceRender s).renderScheduled = true ∧
    (debounceRenderN n s).timeoutsSet = s.timeoutsSet + 1 ∧
    (debounceRenderN n s).renderScheduled = true ∧
    (∀ m, (debounceRenderN m (debounceRender s)).renderScheduled = true) ∧
    (fireRenderTimer (debounceRenderN n s)).renderScheduled = false := by
  have hc := debounceRenderN_collapse n h1 s
  have hone : debounceRender s =
      { s with
        renderScheduled := true
        renderTimer := some s.timeoutsSet
        timeoutsSet := s.timeoutsSet + 1 } := by
    simp [debounceRender, h2]
  refine ⟨debounceRender_sets s, ?_, ?_, ?_, rfl⟩
  · rw [hc, hone]
  · rw [hc]
    exact debounceRender_sets s
  · intro m
    rw [debounceRenderN_of_scheduled m (debounceRender s) (debounceRender_sets s)]
    exact debounceRender_sets s

open Reporter in
/-- C2 witness: three synchronous calls from the fresh Reporter state
schedule exactly one timer; the flag stays true until the timer fires. -/
theorem debounceRender_at_most_one_pending_witness :
    (debounceRender initialReporter).renderScheduled = true ∧
    (debounceRenderN 3 initialReporter).timeoutsSet = initialReporter.timeoutsSet + 1 ∧
    (debounceRenderN 3 initialReporter).renderScheduled = true ∧
    (∀ m, (debounceRenderN m (debounceRender initialReporter)).renderScheduled = true) ∧
    (fireRenderTimer (debounceRenderN 3 initialReporter)).renderScheduled = false :=
  debounceRender_at_most_one_pending initialReporter 3 (by decide) (by decide)

open Reporter in
/-- C3: `flushBufferedOutput` on an empty buffer performs no write and
leaves the state unchanged; on a non-empty buffer it writes the buffer
contents via `out` in a single call, sets `lastOutputHeight` to the number
of newline-delimited segments written (the segments terminated by a
newline, i.e. the number of newline characters in the buffer — the test
suite pins the value 2 for the three-segment buffer `'foo\nbar\nbaz'`),
and clears the buffer. -/
theorem flushBufferedOutput_correct (s : ReporterState) :
    (s.bufferedOutput = "" → flushBufferedOutput s = s) ∧
    (s.bufferedOutput ≠ "" →
      (flushBufferedOutput s).outWrites = s.outWrites ++ [s.bufferedOutput] ∧
      (flushBufferedOutput s).lastOutputHeight
        = s.bufferedOutput.data.count '\n' ∧
      (flushBufferedOutput s).bufferedOutput = "") := by
  constructor
  · intro h
    simp [flushBufferedOutput, h]
  · intro h
    simp [flushBufferedOutput, h, out]

open Reporter in
/-- C3 witness: flushing the empty fresh state writes nothing; flushing
the buffer `"foo\nbar\nbaz"` writes it in one call, sets the height to 2
and empties the buffer. -/
theorem flushBufferedOutput_correct_witness :
    flushBufferedOutput initialReporter = initialReporter ∧
    (flushBufferedOutput { initialReporter with bufferedOutput := "foo\nbar\nbaz" }).outWrites
      = ["foo\nbar\nbaz"] ∧
    (flushBufferedOutput { initialReporter with bufferedOutput := "foo\nbar\nbaz" }).lastOutputHeight
      = 2 ∧
    (flushBufferedOutput { initialReporter with bufferedOutput := "foo\nbar\nbaz" }).bufferedOutput
      = "" := by
  have h1 := (flushBufferedOutput_correct initialReporter).1 rfl
  have h2 := (flushBufferedOutput_correct
    { initialReporter with bufferedOutput := "foo\nbar\nbaz" }).2 (by decide)
  exact ⟨h1, h2.1, by rw [h2.2.1]; decide, h2.2.2⟩

open Reporter in
/-- C5: `clearLinesOutput` writes, in a single `out` call, the
cursor-up-and-erase-line sequence `"\x1B[1A\x1B[K"` repeated exactly
`lastOutputHeight` times, then resets `lastOutputHeight` to 0; with a
height of 0 the repeated sequence is the empty string, so nothing is
written. -/
theorem clearLinesOutput_correct (s : ReporterState) :
    (clearLinesOutput s).outWrites
      = s.outWrites ++ [strRepeat eraseLineSequence s.lastOutputHeight] ∧
    (clearLinesOutput s).lastOutputHeight = 0 ∧
    strRepeat eraseLineSequence 0 = "" :=
  ⟨rfl, rfl, rfl⟩

open Reporter in
/-- C6: `displayError` calls the error-stream write function `err` exactly
three times — header separator, message/stack, footer separator — and, as
a total Lean function, never fails. -/
theorem displayError_three_writes (s : ReporterState) (e : ErrObj) :
    (displayError s e).errWrites
      = s.errWrites ++ ["\n" ++ e.message ++ "\n", e.stack ++ "\n", "\n"] ∧
    (displayError s e).errWrites.length = s.errWrites.length + 3 := by
  constructor
  · simp [displayError, err]
  · simp [displayError, err]

open Reporter in
/-- C1: `displayFinalOutput(error)` — when `errorLogs` is non-empty,
`displayError` is never invoked even though an error object was passed
(the result is the footer-then-error-logs composition and the error
stream receives no write), and `displayLogs` is invoked with `errorLogs`;
when `errorLogs` is empty and an error is set, the result is exactly
`displayError` applied to that error object after the final render; when
no error is set, `displayFooter` is invoked and, on success with no
captured error logs, `displayLogs` is invoked with `logs`. -/
theorem displayFinalOutput_error_policy (s : ReporterState) (e : ErrObj) :
    (s.errorLogs ≠ [] →
      displayFinalOutput s (some e)
        = displayLogs (displayFooter (finalBase s)) s.errorLogs ∧
      (displayFinalOutput s (some e)).errWrites = s.errWrites) ∧
    (s.errorLogs = [] →
      displayFinalOutput s (some e) = displayError (finalBase s) e) ∧
    (displayFinalOutput s none
      = if s.errorLogs = []
        then displayLogs (displayFooter (finalBase s)) s.logs
        else displayLogs (displayFooter (finalBase s)) s.errorLogs) := by
  obtain ⟨hb1, hb2, hb3⟩ := finalBase_preserve s
  obtain ⟨hf1, hf2, hf3⟩ := displayFooter_preserve (finalBase s)
  have hfb1 : (displayFooter (finalBase s)).errorLogs = s.errorLogs := hf1.trans hb1
  have hfb2 : (displayFooter (finalBase s)).logs = s.logs := hf2.trans hb2
  have hfb3 : (displayFooter (finalBase s)).errWrites = s.errWrites := hf3.trans hb3
  refine ⟨?_, ?_, ?_⟩
  · intro h
    have hmain : displayFinalOutput s (some e)
        = displayLogs (displayFooter (finalBase s)) s.errorLogs := by
      simp [displayFinalOutput, hb1, hfb1, h]
    refine ⟨hmain, ?_⟩
    rw [hmain]
    exact (displayLogs_preserve (displayFooter (finalBase s)) s.errorLogs).2.trans hfb3
  · intro h
    simp [displayFinalOutput, hb1, displayError_errorLogs, h]
  · by_cases h : s.errorLogs = [] <;>
      simp [displayFinalOutput, hb1, hfb1, hfb2, h]

open Reporter in
/-- C1 witness: with captured error log `"foo"` and an error passed, the
error stream stays untouched and the error logs are displayed; with no
captured error logs the same error is displayed via `displayError`. -/
theorem displayFinalOutput_error_policy_witness :
    displayFinalOutput { initialReporter with errorLogs := ["foo"] }
        (some { message := "Oops", stack := "stack" })
      = displayLogs
          (displayFooter (finalBase { initialReporter with errorLogs := ["foo"] }))
          ["foo"] ∧
    (displayFinalOutput { initialReporter with errorLogs := ["foo"] }
        (some { message := "Oops", stack := "stack" })).errWrites = [] ∧
    displayFinalOutput initialReporter (some { message := "Oops", stack := "stack" })
      = displayError (finalBase initialReporter) { message := "Oops", stack := "stack" } := by
  have h1 := (displayFinalOutput_error_policy
    { initialReporter with errorLogs := ["foo"] }
    { message := "Oops", stack := "stack" }).1 (by decide)
  have h2 := (displayFinalOutput_error_policy initialReporter
    { message := "Oops", stack := "stack" }).2.1 rfl
  exact ⟨h1.1, h1.2, h2⟩

open Reporter in
/-- C4 counterexample: `log('a')` followed by `log('b', 2)` from a fresh
Reporter buffers `"ab\n\n"` — `log` appends no newline by default, as the
repository's test suite pins (`log('foo'); log('bar')` yields `'foobar'`)
— so the single write produced by `flushBufferedOutput` is `"ab\n\n"`,
not `"a\nb\n\n"` as claimed. -/
theorem log_flush_roundtrip_counterexample :
    (flushBufferedOutput
      (Reporter.log (Reporter.log initialReporter "a") "b" 2)).outWrites
      = ["ab\n\n"] ∧
    (flushBufferedOutput
      (Reporter.log (Reporter.log initialReporter "a") "b" 2)).outWrites
      ≠ ["a\nb\n\n"] := by decide

open Reporter in
/-- C4 amended: after `log('a')` followed by `log('b', 2)` (two trailing
newlines), `flushBufferedOutput` produces `"ab\n\n"` as the single write,
`bufferedOutput` is empty afterward, and `lastOutputHeight` equals 2, the
number of non-final newline-delimited lines written (`"ab"` and the empty
line between the two trailing newlines). -/
theorem log_flush_roundtrip_amended :
    (flushBufferedOutput
      (Reporter.log (Reporter.log initialReporter "a") "b" 2)).outWrites
      = ["ab\n\n"] ∧
    (flushBufferedOutput
      (Reporter.log (Reporter.log initialReporter "a") "b" 2)).bufferedOutput
      = "" ∧
    (flushBufferedOutput
      (Reporter.log (Reporter.log initialReporter "a") "b" 2)).lastOutputHeight
      = 2 := by decide

open Reporter in
/-- C7: `handleBaseStart` records `startTime` as the current time on every
invocation; outside a CI environment it starts exactly one recurring
interval timer, and in CI mode the state change is the `startTime` update
alone — no interval timer is created. -/
theorem handleBaseStart_correct (isCi : Bool) (now : Nat) (s : ReporterState) :
    (handleBaseStart isCi now s).startTime = now ∧
    (isCi = false →
      (handleBaseStart isCi now s).intervalsSet = s.intervalsSet + 1 ∧
      (handleBaseStart isCi now s).intervalTimer = some s.intervalsSet) ∧
    (isCi = true → handleBaseStart isCi now s = { s with startTime := now }) := by
  cases isCi <;> simp [handleBaseStart]

open Reporter in
/-- C7 witness: starting at time 42 in a non-CI environment sets
`startTime` and one interval; in CI only `startTime` changes. -/
theorem handleBaseStart_correct_witness :
    (handleBaseStart false 42 initialReporter).startTime = 42 ∧
    (handleBaseStart false 42 initialReporter).intervalsSet
      = initialReporter.intervalsSet + 1 ∧
    (handleBaseStart false 42 initialReporter).intervalTimer
      = some initialReporter.intervalsSet ∧
    handleBaseStart true 42 initialReporter = { initialReporter with startTime := 42 } := by
  obtain ⟨h1, h2, -⟩ := handleBaseStart_correct false 42 initialReporter
  obtain ⟨-, -, h3⟩ := handleBaseStart_correct true 42 initialReporter
  exact ⟨h1, (h2 rfl).1, (h2 rfl).2, h3 rfl⟩

/-- A Tool state right after construction with a loaded (non-empty)
configuration: the `reporter` plugin type is registered with the
`Reporter` contract (Tool.ts:150) and no reporter instance is loaded. -/
def exTool : ToolState :=
  { initialized := false
    argsSet := false
    configLoaded := true
    configPlugins := []
    packageName := "test-boost-app"
    pluginTypes := [("reporter", "Reporter")]
    plugins := [("reporter", [])] }

/-- `exTool` with the `initialized` flag set. -/
def exToolInit : ToolState := { exTool with initialized := true }

/-- A plugin that extends `Plugin` but not the `Reporter` contract. -/
def exOtherPlug : PluginV := { classes := ["SomethingElse", "Plugin"], priority := 100 }

/-- A user-configured reporter that extends the `Reporter` contract and is
not the placeholder `ErrorReporter`. -/
def exCustomReporter : PluginV :=
  { classes := ["MyReporter", "Reporter", "Plugin"], priority := 100 }

/-- `exTool` with a real (non-placeholder) reporter already configured. -/
def exToolCustom : ToolState :=
  { exTool with plugins := [("reporter", [exCustomReporter])] }

namespace Tool

lemma addPlugin_reporter_ok (s : ToolState) (p : PluginV)
    (h2 : s.pluginTypes.lookup "reporter" = some "Reporter")
    (hp : "Plugin" ∈ p.classes)
    (hr : "Reporter" ∈ p.classes) :
    addPlugin s "reporter" p
      = (none, { s with plugins := updateAssoc s.plugins "reporter" p }) := by
  simp [addPlugin, h2, hp, hr]

lemma initTool_success_initialized (cp : List (String × List PluginV))
    (pn : String) (ci be : Bool) (t t' : ToolState)
    (h : initTool cp pn ci be t = (none, t')) : t'.initialized = true := by
  unfold initTool at h
  split at h
  · injection h with h1 h2
    rw [← h2]
    assumption
  · rcases hlc : loadConfig cp pn { t with argsSet := true } with ⟨e1, s1⟩
    rw [hlc] at h
    cases e1 with
    | some m => simp at h
    | none =>
      dsimp only at h
      rcases hlp : loadPlugins s1 with ⟨e2, s2⟩
      rw [hlp] at h
      cases e2 with
      | some m => simp at h
      | none =>
        dsimp only at h
        rcases hlr : loadReporters ci be s2 with ⟨e3, s3⟩
        rw [hlr] at h
        cases e3 with
        | some m => simp at h
        | none =>
          dsimp only at h
          injection h with h1 h2
          rw [← h2]

end Tool

open Tool in
/-- C8: reporter selection in `loadReporters`, for a Tool that is not yet
initialized, has a loaded configuration and carries the standard
`reporter` plugin type: when a CI environment is detected and the
`BOOST_ENV` override is unset, a `CIReporter` is appended; otherwise,
when no reporter is configured or the only configured reporter is the
placeholder `ErrorReporter`, a `DefaultReporter` is appended; otherwise
the state — in particular the configured reporters — is unchanged. -/
theorem loadReporters_selection (ci be : Bool) (s : ToolState)
    (h0 : s.initialized = false)
    (h1 : s.configLoaded = true)
    (h2 : s.pluginTypes.lookup "reporter" = some "Reporter") :
    ((ci && !be) = true →
      loadReporters ci be s
        = (none, { s with plugins := updateAssoc s.plugins "reporter" ciReporterV })) ∧
    ((ci && !be) = false →
      onlyPlaceholderReporters ((s.plugins.lookup "reporter").getD []) = true →
      loadReporters ci be s
        = (none, { s with plugins := updateAssoc s.plugins "reporter" defaultReporterV })) ∧
    ((ci && !be) = false →
      onlyPlaceholderReporters ((s.plugins.lookup "reporter").getD []) = false →
      loadReporters ci be s = (none, s)) := by
  have hci := addPlugin_reporter_ok s ciReporterV h2 (by decide) (by decide)
  have hdef := addPlugin_reporter_ok s defaultReporterV h2 (by decide) (by decide)
  refine ⟨?_, ?_, ?_⟩
  · intro h
    simp [loadReporters, h0, h1, h, hci]
  · intro h h'
    simp [loadReporters, h0, h1, h, h', hdef]
  · intro h h'
    simp [loadReporters, h0, h1, h, h']

open Tool in
/-- C8 witness: from the fresh Tool state with no reporter loaded, a CI
environment without override gets the `CIReporter`, a non-CI environment
gets the `DefaultReporter`, and a configured custom reporter is kept
unchanged. -/
theorem loadReporters_selection_witness :
    loadReporters true false exTool
      = (none, { exTool with plugins := updateAssoc exTool.plugins "reporter" ciReporterV }) ∧
    loadReporters false false exTool
      = (none, { exTool with plugins := updateAssoc exTool.plugins "reporter" defaultReporterV }) ∧
    loadReporters false false exToolCustom = (none, exToolCustom) := by
  refine ⟨?_, ?_, ?_⟩
  · exact (loadReporters_selection true false exTool rfl rfl rfl).1 rfl
  · exact (loadReporters_selection false false exTool rfl rfl rfl).2.1 rfl (by decide)
  · exact (loadReporters_selection false false exToolCustom rfl rfl rfl).2.2 rfl (by decide)

open Tool in
/-- C9: configuration errors are raised synchronously at registration
time — `registerPlugin` throws when a plugin type with the same name is
already registered, `addPlugin` throws when no plugin contract is
registered for the type name and when the plugin does not extend the
registered contract — and in every such case the state, in particular
the plugin registry, is returned unchanged (the checks precede every
mutation in the source). -/
theorem plugin_registration_errors (s : ToolState)
    (typeName contractClass : String) (p : PluginV) :
    ((s.pluginTypes.lookup typeName).isSome = true →
      registerPlugin s typeName contractClass
        = (some "errors:pluginContractExists", s)) ∧
    (s.pluginTypes.lookup typeName = none →
      addPlugin s typeName p = (some "errors:pluginContractNotFound", s)) ∧
    (∀ c, s.pluginTypes.lookup typeName = some c →
      c ∉ p.classes →
      (addPlugin s typeName p).1.isSome = true ∧ (addPlugin s typeName p).2 = s) := by
  refine ⟨?_, ?_, ?_⟩
  · intro h
    simp [registerPlugin, h]
  · intro h
    simp [addPlugin, h]
  · intro c hc hnc
    by_cases hp : "Plugin" ∈ p.classes <;> simp [addPlugin, hc, hnc, hp]

open Tool in
/-- C9 witness: re-registering the `reporter` type throws and leaves the
state unchanged; adding a plugin for an unregistered type throws and
leaves the state unchanged; adding a plugin that does not extend the
`Reporter` contract throws and leaves the state unchanged. -/
theorem plugin_registration_errors_witness :
    registerPlugin exTool "reporter" "Reporter"
      = (some "errors:pluginContractExists", exTool) ∧
    addPlugin exTool "plugin" exOtherPlug
      = (some "errors:pluginContractNotFound", exTool) ∧
    (addPlugin exTool "reporter" exOtherPlug).1.isSome = true ∧
    (addPlugin exTool "reporter" exOtherPlug).2 = exTool := by
  have h1 := (plugin_registration_errors exTool "reporter" "Reporter" exOtherPlug).1
    (by decide)
  have h2 := (plugin_registration_errors exTool "plugin" "Reporter" exOtherPlug).2.1
    (by decide)
  have h3 := (plugin_registration_errors exTool "reporter" "Reporter" exOtherPlug).2.2
    "Reporter" (by decide) (by decide)
  exact ⟨h1, h2, h3.1, h3.2⟩

open Tool in
/-- C10: once the `initialized` flag is true, `initialize` (here
`initTool`), `loadConfig`, `loadPlugins` and `loadReporters` all return
the Tool unchanged with no error — config, package and the plugin
registry are untouched — and `initialize` is idempotent: whenever a call
succeeds, calling it again on the resulting state succeeds and changes
nothing. -/
theorem tool_initialized_noop (cp : List (String × List PluginV))
    (pn : String) (ci be : Bool) (s : ToolState)
    (h : s.initialized = true) :
    initTool cp pn ci be s = (none, s) ∧
    loadConfig cp pn s = (none, s) ∧
    loadPlugins s = (none, s) ∧
    loadReporters ci be s = (none, s) ∧
    (∀ t t' : ToolState, initTool cp pn ci be t = (none, t') →
      initTool cp pn ci be t' = (none, t')) := by
  refine ⟨?_, ?_, ?_, ?_, ?_⟩
  · simp [initTool, h]
  · simp [loadConfig, h]
  · simp [loadPlugins, h]
  · simp [loadReporters, h]
  · intro t t' ht
    have hinit := initTool_success_initialized cp pn ci be t t' ht
    simp [initTool, hinit]

open Tool in
/-- C10 witness: on the already-initialized Tool state all four lifecycle
calls are identity no-ops, and a successful first `initialize` from the
fresh state makes the second call a no-op. -/
theorem tool_initialized_noop_witness :
    initTool [] "test-boost-app" false false exToolInit = (none, exToolInit) ∧
    loadConfig [] "test-boost-app" exToolInit = (none, exToolInit) ∧
    loadPlugins exToolInit = (none, exToolInit) ∧
    loadReporters false false exToolInit = (none, exToolInit) ∧
    initTool [] "test-boost-app" false false
        (initTool [] "test-boost-app" false false exTool).2
      = (none, (initTool [] "test-boost-app" false false exTool).2) := by
  obtain ⟨w1, w2, w3, w4, w5⟩ :=
    tool_initialized_noop [] "test-boost-app" false false exToolInit rfl
  exact ⟨w1, w2, w3, w4,
    w5 exTool (initTool [] "test-boost-app" false false exTool).2 (by decide)⟩

end Boost
